import Mathlib

/-!
Shallow embedding of `src/src/item/itemfactory.cpp` (CopyQ's `ItemFactory`).

Modelling conventions:

* A loader (`ItemLoaderInterfacePtr`) is a `Loader` record.  Loader handles are
  compared by pointer identity in the source; here every handle carries a
  distinct `id : Nat` and identity comparison is comparison of `id`.
* The per-call ambient data (`QModelIndex index`, `QWidget *parent`) is fixed
  throughout one dispatch, so each loader's `create(index, parent)` result for
  the ambient index is baked in as the field `createResult`, its
  `transform(item, index)` behaviour as the function field `transform`, and the
  `DummyItem` widget that `new DummyItem(index, parent)` would construct as the
  factory field `dummyItem`.  (The `DummyItem` text-truncation to 4096
  characters and the tooltip set from the notes field are presentation effects
  on the widget object itself and play no role in the verified claims.)
* `m_loaderChildren` (a `QMap<QObject*, ItemLoaderInterfacePtr>`) is an
  association list from a widget identifier to a nullable loader identifier;
  `QMap::operator[]` on a missing key inserts a default-constructed (null)
  value, which `qmapBracket` reproduces.
* `m_disabledLoaders` (a `QSet`) is a list of loader ids with set semantics.
* Dispatch operations additionally return instrumentation: the list of loaders
  whose `create` / `transform` / `saveItems` entry points were invoked, in
  invocation order.  This instrumentation only records calls the C++ performs;
  it does not alter any result.
-/

/-- A created visual object (`ItemWidget`); `wid` stands for the identity of
its underlying `QWidget` (`item->widget()`). -/
structure ItemWidget where
  wid : Nat
deriving DecidableEq, Repr

/-- The stream (`QFile`) handed to `saveItems`: a seek position plus the byte
content written so far. -/
structure SaveStream where
  pos : Nat
  content : List Nat
deriving DecidableEq, Repr

/-- One discovered plugin (`ItemLoaderInterfacePtr`), with its behaviour for
the ambient call data baked in (see module comment). -/
structure Loader where
  id : Nat
  name : String
  priority : Int
  createResult : Option ItemWidget
  transform : ItemWidget → Option ItemWidget
  formatsToSave : List String
  saveItems : SaveStream → Bool × SaveStream

/-- `m_loaderChildren`: widget identity ↦ nullable loader identity. -/
abbrev Children := List (Nat × Option Nat)

/-- `QMap::value`-style lookup (first matching key). -/
def lookupChildren : Children → Nat → Option (Option Nat)
  | [], _ => none
  | (k, v) :: rest, w => if k = w then some v else lookupChildren rest w

/-- `QMap::insert` / `operator[] =`: replace the entry for the key, or add
one. -/
def insertChildren : Children → Nat → Option Nat → Children
  | [], w, v => [(w, v)]
  | (k, v0) :: rest, w, v =>
      if k = w then (w, v) :: rest else (k, v0) :: insertChildren rest w v

/-- Non-const `QMap::operator[]`: return the stored value, inserting a
default-constructed (null) one when the key is absent. -/
def qmapBracket (m : Children) (w : Nat) : Option Nat × Children :=
  match lookupChildren m w with
  | some v => (v, m)
  | none => (none, insertChildren m w none)

/-- The `ItemFactory` state (`m_loaders`, `m_disabledLoaders`,
`m_loaderChildren`) together with the ambient-call `DummyItem` widget. -/
structure ItemFactory where
  loaders : List Loader
  disabledLoaders : List Nat
  loaderChildren : Children
  dummyItem : ItemWidget

/-- `ItemFactory::isLoaderEnabled`: not contained in `m_disabledLoaders`. -/
def isLoaderEnabled (f : ItemFactory) (loader : Loader) : Prop :=
  loader.id ∉ f.disabledLoaders

instance (f : ItemFactory) (loader : Loader) : Decidable (isLoaderEnabled f loader) :=
  inferInstanceAs (Decidable (loader.id ∉ f.disabledLoaders))

/-- `ItemFactory::setLoaderEnabled`: `QSet::remove` on enable, `QSet::insert`
on disable (set semantics on the id list; nothing else is touched). -/
def setLoaderEnabled (f : ItemFactory) (loader : Loader) (enabled : Bool) : ItemFactory :=
  if enabled then
    { f with disabledLoaders := f.disabledLoaders.filter (fun x => x != loader.id) }
  else
    { f with disabledLoaders :=
        if loader.id ∈ f.disabledLoaders then f.disabledLoaders
        else loader.id :: f.disabledLoaders }

/-- Result of a `createItem` call: the returned item (null = `NULL`), the
updated `m_loaderChildren`, and the instrumentation traces of invoked
`create` and `transform` entry points (loader ids, in invocation order). -/
structure CreateResult where
  item : Option ItemWidget
  children : Children
  createCalls : List Nat
  transformCalls : List Nat
deriving DecidableEq, Repr

/-- One iteration of the `ItemFactory::transformItem` loop: an enabled
loader's `transform` may replace the item (`NULL` keeps the previous one); a
disabled loader is skipped. -/
def transformStep (f : ItemFactory) (acc : ItemWidget × List Nat) (l : Loader) :
    ItemWidget × List Nat :=
  if isLoaderEnabled f l then
    match l.transform acc.1 with
    | some newItem => (newItem, acc.2 ++ [l.id])
    | none => (acc.1, acc.2 ++ [l.id])
  else acc

/-- `ItemFactory::transformItem`: every enabled loader, in collection order,
may replace the item. Returns the final item and the ids of loaders whose
`transform` ran. -/
def transformItem (f : ItemFactory) (item : ItemWidget) : ItemWidget × List Nat :=
  f.loaders.foldl (transformStep f) (item, [])

/-- Shared tail of `ItemFactory::createItem(loader, index, parent)` after the
enablement guard: `item0` is what `new DummyItem(...)` / `loader->create(...)`
returned, `cCalls` records whether a `create` entry point was invoked. -/
def createItemTail (f : ItemFactory) (loader : Option Loader)
    (item0 : Option ItemWidget) (cCalls : List Nat) : CreateResult :=
  match item0 with
  | some it =>
      let tr := transformItem f it
      { item := some tr.1
        children := insertChildren f.loaderChildren tr.1.wid (loader.map (·.id))
        createCalls := cCalls
        transformCalls := tr.2 }
  | none =>
      { item := none, children := f.loaderChildren
        createCalls := cCalls, transformCalls := [] }

/-- `ItemFactory::createItem(loader, index, parent)` (single-loader overload):
guard `loader.isNull() || isLoaderEnabled(loader)`; a null loader constructs
the `DummyItem`, otherwise `loader->create` runs; a non-null item is passed
through `transformItem`, recorded in `m_loaderChildren` keyed by its widget
with the *passed* loader as value, and returned. -/
def createItem (f : ItemFactory) (loader : Option Loader) : CreateResult :=
  match loader with
  | none => createItemTail f none (some f.dummyItem) []
  | some l =>
      if isLoaderEnabled f l then createItemTail f (some l) l.createResult [l.id]
      else { item := none, children := f.loaderChildren
             createCalls := [], transformCalls := [] }

/-- Loop of `ItemFactory::createItem(index, parent)` (no-loader overload):
`foreach` over `m_loaders`, returning the first non-null result; `acc`
accumulates the `create` invocations of failed attempts. -/
def createItemLoop (f : ItemFactory) : List Loader → List Nat → CreateResult
  | [], acc =>
      let r := createItem f none
      { r with createCalls := acc ++ r.createCalls }
  | l :: rest, acc =>
      let r := createItem f (some l)
      if r.item.isSome then { r with createCalls := acc ++ r.createCalls }
      else createItemLoop f rest (acc ++ r.createCalls)

/-- `ItemFactory::createItem(index, parent)`: try every loader in collection
order, fall back to the null-loader (DummyItem) path. -/
def createItemAny (f : ItemFactory) : CreateResult :=
  createItemLoop f f.loaders []

/-- Modelled from the spec: the fixed internal "item notes" format marker
(`mimeItemNotes`, declared in a header outside the provided source). The
concrete string only matters through being distinct from `"text/plain"` and
from `mimeItems`. -/
def mimeItemNotes : String := "application/x-copyq-item-notes"

/-- Modelled from the spec: the fixed internal "item collection" format marker
(`mimeItems`, declared in a header outside the provided source). -/
def mimeItems : String := "application/x-copyq-item"

/-- Inner step of `ItemFactory::formatsToSave`: append a declared format
unless it is already present. -/
def appendFormat (acc : List String) (fmt : String) : List String :=
  if fmt ∈ acc then acc else acc ++ [fmt]

/-- One iteration of the `ItemFactory::formatsToSave` aggregation loop: merge
an enabled loader's declared formats, skip a disabled loader. -/
def collectStep (f : ItemFactory) (acc : List String) (l : Loader) : List String :=
  if isLoaderEnabled f l then l.formatsToSave.foldl appendFormat acc else acc

/-- The aggregation loop of `ItemFactory::formatsToSave`: union, in first-seen
order, of every enabled loader's declared save formats. -/
def collectSaveFormats (f : ItemFactory) : List String :=
  f.loaders.foldl (collectStep f) []

/-- `ItemFactory::formatsToSave`: aggregate enabled loaders' formats, prepend
`"text/plain"` if missing, append the two internal markers if missing. -/
def formatsToSave (f : ItemFactory) : List String :=
  let formats := collectSaveFormats f
  let f1 := if "text/plain" ∈ formats then formats else "text/plain" :: formats
  let f2 := if mimeItemNotes ∈ f1 then f1 else f1 ++ [mimeItemNotes]
  if mimeItems ∈ f2 then f2 else f2 ++ [mimeItems]

/-- Proof-side view of the "append if missing" post-processing step of
`formatsToSave` (`f1 ++ [x]` guarded by `contains`); definitionally equal to
the corresponding `if` in `formatsToSave`. -/
def ensurePresent (l : List String) (x : String) : List String :=
  if x ∈ l then l else l ++ [x]

/-- Proof-side view of the "prepend if missing" post-processing step of
`formatsToSave`. -/
def prependTextPlain (l : List String) : List String :=
  if "text/plain" ∈ l then l else "text/plain" :: l

/-- `QStringList::indexOf`: index of the first occurrence, or `-1`. -/
def qIndexOf (names : List String) (s : String) : Int :=
  match names.findIdx? (fun n => n == s) with
  | some i => (i : Int)
  | none => -1

/-- `PluginSorter::value`: the position of the loader's name in the
prioritized name list, or `-1`. -/
def pluginSorterValue (order : List String) (item : Loader) : Int :=
  qIndexOf order item.name

/-- `PluginSorter::operator()`: the comparator used by
`ItemFactory::setPluginPriority`. -/
def pluginSorterLt (order : List String) (lhs rhs : Loader) : Bool :=
  let l := pluginSorterValue order lhs
  let r := pluginSorterValue order rhs
  if l = -1 then decide (r = -1) && decide (lhs.priority > rhs.priority)
  else if r = -1 then true
  else decide (l < r)

/-- `qSort(m_loaders.begin(), m_loaders.end(), PluginSorter(names))` modelled
as a comparison sort: the output is a permutation of the input that is sorted
under the comparator's induced non-strict relation (`¬ comp b a`), which is
exactly the guarantee Qt's (unstable) `qSort` gives; `List.insertionSort` is
used as the executable instance. -/
def qSortLoaders (comp : Loader → Loader → Bool) (xs : List Loader) : List Loader :=
  xs.insertionSort (fun a b => comp b a = false)

/-- `ItemFactory::setPluginPriority`. -/
def setPluginPriority (f : ItemFactory) (pluginNames : List String) : ItemFactory :=
  { f with loaders := qSortLoaders (pluginSorterLt pluginNames) f.loaders }

/-- Loop of `ItemFactory::saveItems`: for each enabled loader, `file->seek(0)`
then `loader->saveItems`; stop at the first success. The trace records, per
invoked loader, its id, the stream state it was handed, and the result it
reported. -/
def saveItemsLoop (f : ItemFactory) :
    List Loader → SaveStream → Bool × SaveStream × List (Nat × SaveStream × Bool)
  | [], st => (false, st, [])
  | l :: rest, st =>
      if isLoaderEnabled f l then
        let st0 : SaveStream := { st with pos := 0 }
        let r := l.saveItems st0
        if r.1 then (true, r.2, [(l.id, st0, true)])
        else
          let rec0 := saveItemsLoop f rest r.2
          (rec0.1, rec0.2.1, (l.id, st0, false) :: rec0.2.2)
      else saveItemsLoop f rest st

/-- `ItemFactory::saveItems(tabName, model, file)`. -/
def saveItems (f : ItemFactory) (st : SaveStream) :
    Bool × SaveStream × List (Nat × SaveStream × Bool) :=
  saveItemsLoop f f.loaders st

/-- Loop body of `ItemFactory::otherItemLoader`:
`for (int i = currentIndex + dir; i != currentIndex; i = i + dir)` with the
wraparound normalisation performed *inside* the body (after the exit test),
exactly as in the source. `fuel` bounds the number of iterations (the C++
loop has no such bound and can fail to terminate); on exhaustion the
accumulated trace of considered positions is returned with a null item.
The trace records each position on which `createItem(m_loaders[i], ...)` was
invoked. -/
def otherLoop (f : ItemFactory) (currentIndex dir : Int) :
    Nat → Int → List Int → Option ItemWidget × Children × List Int
  | 0, _, acc => (none, f.loaderChildren, acc)
  | fuel + 1, i, acc =>
      if i = currentIndex then (none, f.loaderChildren, acc)
      else
        let size : Int := f.loaders.length
        let i2 := if i ≥ size then i % size else if i < 0 then size - 1 else i
        match f.loaders[i2.toNat]? with
        | some l =>
            let r := createItem f (some l)
            match r.item with
            | some it => (some it, r.children, acc ++ [i2])
            | none => otherLoop f currentIndex dir fuel (i2 + dir) (acc ++ [i2])
        | none => (none, f.loaderChildren, acc ++ [i2])

/-- `ItemFactory::otherItemLoader(index, current, dir)`: look up the current
widget's owner via non-const `QMap::operator[]` (which default-inserts a null
entry on a miss), return null if the owner is null, otherwise walk the
collection from the owner's position. Returns the produced item, the updated
`m_loaderChildren`, and the trace of considered positions. -/
def otherItemLoader (f : ItemFactory) (currentWidget : Nat) (dir : Int) (fuel : Nat) :
    Option ItemWidget × Children × List Int :=
  let br := qmapBracket f.loaderChildren currentWidget
  match br.1 with
  | none => (none, br.2, [])
  | some loaderId =>
      let currentIndex : Int :=
        match f.loaders.findIdx? (fun l => l.id == loaderId) with
        | some idx => (idx : Int)
        | none => -1
      otherLoop f currentIndex dir fuel (currentIndex + dir) []

/-- `ItemFactory::nextItemLoader`. -/
def nextItemLoader (f : ItemFactory) (currentWidget : Nat) (fuel : Nat) :
    Option ItemWidget × Children × List Int :=
  otherItemLoader f currentWidget 1 fuel

/-- `ItemFactory::previousItemLoader`. -/
def previousItemLoader (f : ItemFactory) (currentWidget : Nat) (fuel : Nat) :
    Option ItemWidget × Children × List Int :=
  otherItemLoader f currentWidget (-1) fuel

/-- `ItemFactory::loaderChildDestroyed`: drop the destroyed widget's entry. -/
def loaderChildDestroyed (f : ItemFactory) (w : Nat) : ItemFactory :=
  { f with loaderChildren := f.loaderChildren.filter (fun p => p.1 != w) }

/-- Spec-side rank function, following the spec's words for the name-order
policy: "rank(x) = index in orderedNames, or −1 if absent". -/
def specRank (order : List String) (x : Loader) : Int :=
  match order.findIdx? (fun n => n == x.name) with
  | some i => (i : Int)
  | none => -1

/-- Spec-side comparator, following the spec's words: "x before y iff
(rank(x)≠−1 and (rank(y)=−1 or rank(x)<rank(y))) or (rank(x)=−1 and
rank(y)=−1 and priority(x)>priority(y))". To be compared with the source's
`pluginSorterLt`. -/
def specNameOrderLt (order : List String) (x y : Loader) : Prop :=
  (specRank order x ≠ -1 ∧ (specRank order y = -1 ∨ specRank order x < specRank order y)) ∨
  (specRank order x = -1 ∧ specRank order y = -1 ∧ x.priority > y.priority)

/-! Concrete fixtures used by counterexamples and witnesses.  A loader that
declines everything, with selected fields overridden per fixture. -/

/-- A loader that declines every operation: `create` and `transform` return
null, no declared formats, `saveItems` reports failure without writing. -/
def baseLoader (i : Nat) (nm : String) : Loader :=
  { id := i, name := nm, priority := 0, createResult := none,
    transform := fun _ => none, formatsToSave := [],
    saveItems := fun st => (false, st) }

/-- C1 fixture, owner at position 0: loader 0 (the owner) succeeds in
creating, loader 1 declines. The current widget `5` is owned by loader 0. -/
def factoryC1 : ItemFactory :=
  { loaders := [{ baseLoader 0 "a" with createResult := some ⟨10⟩ }, baseLoader 1 "b"],
    disabledLoaders := [], loaderChildren := [(5, some 0)], dummyItem := ⟨99⟩ }

/-- C1 fixture where every loader's `create` declines (owner still position
0): the source loop then never meets its exit condition. -/
def factoryC1AllFail : ItemFactory :=
  { loaders := [baseLoader 0 "a", baseLoader 1 "b"],
    disabledLoaders := [], loaderChildren := [(5, some 0)], dummyItem := ⟨99⟩ }

/-- C2 counterexample fixture: one enabled loader declaring `"text/html"`
before `"text/plain"`. -/
def factoryC2 : ItemFactory :=
  { loaders := [{ baseLoader 0 "html" with formatsToSave := ["text/html", "text/plain"] }],
    disabledLoaders := [], loaderChildren := [], dummyItem := ⟨0⟩ }

/-- C2 witness fixture: no loaders at all. -/
def factoryEmpty : ItemFactory :=
  { loaders := [], disabledLoaders := [], loaderChildren := [], dummyItem := ⟨0⟩ }

/-- C3 witness loaders and factory. -/
def loaderW3a : Loader := { baseLoader 0 "a" with priority := 5 }

def loaderW3b : Loader := { baseLoader 1 "b" with priority := 3 }

def factoryW3 : ItemFactory :=
  { loaders := [loaderW3a, loaderW3b], disabledLoaders := [],
    loaderChildren := [], dummyItem := ⟨0⟩ }

/-- C4 witness fixture, the claim's own example: `A` disabled, `B` enabled
but declining, `C` enabled and succeeding. -/
def loaderW4A : Loader := { baseLoader 0 "A" with createResult := some ⟨40⟩ }

def loaderW4B : Loader := baseLoader 1 "B"

def loaderW4C : Loader := { baseLoader 2 "C" with createResult := some ⟨42⟩ }

def factoryW4 : ItemFactory :=
  { loaders := [loaderW4A, loaderW4B, loaderW4C], disabledLoaders := [0],
    loaderChildren := [], dummyItem := ⟨0⟩ }

/-- C5 witness fixture. -/
def loaderW5 : Loader := baseLoader 3 "w5"

def factoryW5 : ItemFactory :=
  { loaders := [loaderW5], disabledLoaders := [], loaderChildren := [],
    dummyItem := ⟨0⟩ }

/-- C6 witness fixture: one enabled loader whose `saveItems` writes three
bytes, advances the position, and then reports failure. -/
def loaderW6 : Loader :=
  { baseLoader 6 "w6" with
      saveItems := fun st => (false, { pos := st.pos + 3, content := st.content ++ [1, 2, 3] }) }

def factoryW6 : ItemFactory :=
  { loaders := [loaderW6], disabledLoaders := [], loaderChildren := [],
    dummyItem := ⟨0⟩ }

/-- C7 witness fixture: a disabled loader that would succeed if asked. -/
def loaderW7 : Loader := { baseLoader 7 "w7" with createResult := some ⟨70⟩ }

def factoryW7 : ItemFactory :=
  { loaders := [loaderW7], disabledLoaders := [7], loaderChildren := [],
    dummyItem := ⟨71⟩ }

/-- C8 fixtures: `factoryC8` has no ownership entry for widget `3`
(counterexample: the lookup default-inserts one); `factoryW8` has widget `4`
recorded with the null sentinel (fallback-created). -/
def factoryC8 : ItemFactory :=
  { loaders := [baseLoader 0 "a"], disabledLoaders := [], loaderChildren := [],
    dummyItem := ⟨0⟩ }

def factoryW8 : ItemFactory :=
  { loaders := [baseLoader 0 "a"], disabledLoaders := [],
    loaderChildren := [(4, none)], dummyItem := ⟨0⟩ }

/-- C9 witness fixture: loader 0 creates widget `1`; loader 1 then transforms
it into widget `2`. The ownership entry must still name loader 0. -/
def loaderW9a : Loader := { baseLoader 0 "a" with createResult := some ⟨1⟩ }

def loaderW9b : Loader := { baseLoader 1 "b" with transform := fun _ => some ⟨2⟩ }

def factoryW9 : ItemFactory :=
  { loaders := [loaderW9a, loaderW9b], disabledLoaders := [],
    loaderChildren := [], dummyItem := ⟨0⟩ }

example : (createItem factoryEmpty none).item = some ⟨0⟩ := by decide

/-! ## Helper lemmas -/

theorem lookupChildren_insertChildren_self (m : Children) (k : Nat) (v : Option Nat) :
    lookupChildren (insertChildren m k v) k = some v := by
  induction m with
  | nil => simp [insertChildren, lookupChildren]
  | cons p rest ih =>
      obtain ⟨k0, v0⟩ := p
      by_cases h : k0 = k
      · simp [insertChildren, h, lookupChildren]
      · simp [insertChildren, h, lookupChildren, ih]

theorem transformFold_calls (f : ItemFactory) (ls : List Loader) :
    ∀ acc : ItemWidget × List Nat,
      (ls.foldl (transformStep f) acc).2 =
        acc.2 ++ (ls.filter (fun l => decide (isLoaderEnabled f l))).map (·.id) := by
  induction ls with
  | nil => intro acc; simp
  | cons l rest ih =>
      intro acc
      by_cases h : isLoaderEnabled f l
      · have hstep : (transformStep f acc l).2 = acc.2 ++ [l.id] := by
          unfold transformStep
          rw [if_pos h]
          cases l.transform acc.1 <;> rfl
        have hstep1 : transformStep f acc l =
            ((transformStep f acc l).1, acc.2 ++ [l.id]) := by
          rw [← hstep]
        calc (List.foldl (transformStep f) acc (l :: rest)).2
            = (List.foldl (transformStep f) (transformStep f acc l) rest).2 := by
              simp [List.foldl_cons]
          _ = (transformStep f acc l).2 ++
                (rest.filter (fun x => decide (isLoaderEnabled f x))).map (·.id) := ih _
          _ = acc.2 ++ ((l :: rest).filter (fun x => decide (isLoaderEnabled f x))).map (·.id) := by
              rw [hstep]
              simp [List.filter_cons, h, List.append_assoc]
      · have hstep : transformStep f acc l = acc := by
          unfold transformStep; rw [if_neg h]
        simp only [List.foldl_cons, hstep, List.filter_cons]
        rw [ih acc]
        simp [h]

theorem transformItem_calls (f : ItemFactory) (it : ItemWidget) :
    (transformItem f it).2 =
      (f.loaders.filter (fun l => decide (isLoaderEnabled f l))).map (·.id) := by
  unfold transformItem
  rw [transformFold_calls]
  simp

/-! ## C10 -/

/-- C10: an item created via the null/"none" sentinel fallback path is also
passed through the Transform Chain — the returned item is the fallback
renderer's output run through `transformItem` (whose per-loader step keeps
the previous item exactly when a loader's transform declines), every enabled
loader's transform is invoked in collection order, and the result is recorded
in the ownership map with the null sentinel. -/
theorem createItem_fallback_runs_transform_chain (f : ItemFactory) :
    createItem f none =
      { item := some (transformItem f f.dummyItem).1,
        children := insertChildren f.loaderChildren (transformItem f f.dummyItem).1.wid none,
        createCalls := [],
        transformCalls := (f.loaders.filter (fun l => decide (isLoaderEnabled f l))).map (·.id) } := by
  show createItemTail f none (some f.dummyItem) [] = _
  unfold createItemTail
  simp [transformItem_calls]

/-! ## C7 -/

/-- C7: a single-loader `createItem` call on a disabled loader returns no
item, leaves the ownership map unchanged and invokes no loader entry point;
the null/"none" sentinel is always permitted and produces the built-in
fallback renderer (as post-processed by the transform chain) with no loader
`create` invoked. -/
theorem createItem_disabled_rejected_none_allowed :
    (∀ (f : ItemFactory) (l : Loader), ¬ isLoaderEnabled f l →
      createItem f (some l) =
        { item := none, children := f.loaderChildren,
          createCalls := [], transformCalls := [] }) ∧
    (∀ f : ItemFactory,
      (createItem f none).item = some (transformItem f f.dummyItem).1 ∧
      (createItem f none).createCalls = []) := by
  constructor
  · intro f l h
    simp only [createItem]
    rw [if_neg h]
  · intro f
    constructor <;> rfl

/-- Witness for C7 at a concrete disabled loader and the sentinel path. -/
theorem createItem_disabled_rejected_none_allowed_witness :
    createItem factoryW7 (some loaderW7) =
      { item := none, children := factoryW7.loaderChildren,
        createCalls := [], transformCalls := [] } ∧
    (createItem factoryW7 none).item = some ⟨71⟩ := by
  refine ⟨createItem_disabled_rejected_none_allowed.1 factoryW7 loaderW7 (by decide), ?_⟩
  have h := (createItem_disabled_rejected_none_allowed.2 factoryW7).1
  rw [h]
  rfl

/-! ## C9 -/

/-- C9: a successful `createItem` records, under the returned item's widget,
the loader that was passed to the call (null sentinel for the fallback), even
when the transform chain replaced the created item by another loader's
widget. -/
theorem createItem_records_original_creator (f : ItemFactory) (loader : Option Loader)
    (it : ItemWidget) (h : (createItem f loader).item = some it) :
    lookupChildren (createItem f loader).children it.wid = some (loader.map (·.id)) := by
  cases loader with
  | none =>
      have hit : it = (transformItem f f.dummyItem).1 := by
        have : (createItem f none).item = some (transformItem f f.dummyItem).1 := rfl
        rw [this] at h
        exact (Option.some_inj.mp h).symm
      subst hit
      exact lookupChildren_insertChildren_self _ _ _
  | some l =>
      by_cases he : isLoaderEnabled f l
      · simp only [createItem] at h ⊢
        rw [if_pos he] at h ⊢
        cases hc : l.createResult with
        | none => rw [hc] at h; exact absurd h (by simp [createItemTail])
        | some c =>
            rw [hc] at h
            have hit : it = (transformItem f c).1 := by
              have : (createItemTail f (some l) (some c) [l.id]).item =
                  some (transformItem f c).1 := rfl
              rw [this] at h
              exact (Option.some_inj.mp h).symm
            subst hit
            exact lookupChildren_insertChildren_self _ _ _
      · simp only [createItem] at h
        rw [if_neg he] at h
        exact absurd h (by simp)

/-- Witness for C9: loader 0 creates widget 1, loader 1's transform replaces
it by widget 2; the map entry for widget 2 names loader 0. -/
theorem createItem_records_original_creator_witness :
    (createItem factoryW9 (some loaderW9a)).item = some ⟨2⟩ ∧
    lookupChildren (createItem factoryW9 (some loaderW9a)).children 2 = some (some 0) := by
  refine ⟨by decide, ?_⟩
  exact createItem_records_original_creator factoryW9 (some loaderW9a) ⟨2⟩ (by decide)

/-! ## C5 -/

/-- C5: `setLoaderEnabled` changes only the enablement of the given handle:
the loader collection and ownership map are untouched, the handle's
enablement becomes the given flag, every other handle's enablement is
unchanged, and a dispatch operation (`createItem`) invoked after disabling
skips the handle without calling its `create`. -/
theorem setLoaderEnabled_frame (f : ItemFactory) (l : Loader) (b : Bool) :
    (setLoaderEnabled f l b).loaders = f.loaders ∧
    (setLoaderEnabled f l b).loaderChildren = f.loaderChildren ∧
    (isLoaderEnabled (setLoaderEnabled f l b) l ↔ b = true) ∧
    (∀ l2 : Loader, l2.id ≠ l.id →
      (isLoaderEnabled (setLoaderEnabled f l b) l2 ↔ isLoaderEnabled f l2)) ∧
    (createItem (setLoaderEnabled f l false) (some l)).item = none ∧
    (createItem (setLoaderEnabled f l false) (some l)).createCalls = [] := by
  have hdis : ¬ isLoaderEnabled (setLoaderEnabled f l false) l := by
    unfold setLoaderEnabled isLoaderEnabled
    simp only [Bool.false_eq_true, if_false]
    by_cases hm : l.id ∈ f.disabledLoaders <;> simp [hm]
  refine ⟨?_, ?_, ?_, ?_, ?_, ?_⟩
  · cases b <;> simp [setLoaderEnabled]
  · cases b <;> simp [setLoaderEnabled]
  · cases b with
    | false =>
        simp only [Bool.false_eq_true, iff_false]
        exact hdis
    | true =>
        unfold setLoaderEnabled isLoaderEnabled
        simp [List.mem_filter]
  · intro l2 hne
    cases b with
    | false =>
        unfold setLoaderEnabled isLoaderEnabled
        simp only [Bool.false_eq_true, if_false]
        by_cases hm : l.id ∈ f.disabledLoaders
        · simp [hm]
        · simp [hm, List.mem_cons, hne]
    | true =>
        unfold setLoaderEnabled isLoaderEnabled
        simp [List.mem_filter, hne]
  · simp only [createItem]
    rw [if_neg hdis]
  · simp only [createItem]
    rw [if_neg hdis]

/-- Witness for C5 at a concrete factory and handle. -/
theorem setLoaderEnabled_frame_witness :
    (setLoaderEnabled factoryW5 loaderW5 false).loaders = factoryW5.loaders ∧
    (isLoaderEnabled (setLoaderEnabled factoryW5 loaderW5 false) loaderW5 ↔ False) ∧
    (createItem (setLoaderEnabled factoryW5 loaderW5 false) (some loaderW5)).createCalls = [] := by
  have h := setLoaderEnabled_frame factoryW5 loaderW5 false
  exact ⟨h.1, by rw [h.2.2.1]; simp, h.2.2.2.2.2⟩

/-! ## C4 -/

theorem createItem_fail_eval (f : ItemFactory) (l : Loader)
    (h : ¬ isLoaderEnabled f l ∨ l.createResult = none) :
    (createItem f (some l)).item = none ∧
    (createItem f (some l)).createCalls = (if isLoaderEnabled f l then [l.id] else []) := by
  by_cases he : isLoaderEnabled f l
  · have hc : l.createResult = none := h.resolve_left (by exact fun hn => hn he)
    simp only [createItem]
    rw [if_pos he, hc, if_pos he]
    exact ⟨rfl, rfl⟩
  · simp only [createItem]
    rw [if_neg he, if_neg he]
    exact ⟨rfl, rfl⟩

theorem createItem_success_eval (f : ItemFactory) (l : Loader)
    (he : isLoaderEnabled f l) (hc : l.createResult.isSome) :
    (createItem f (some l)).item.isSome = true ∧
    (createItem f (some l)).createCalls = [l.id] := by
  obtain ⟨c, hcc⟩ := Option.isSome_iff_exists.mp hc
  simp only [createItem]
  rw [if_pos he, hcc]
  exact ⟨rfl, rfl⟩

theorem createItemLoop_all_fail (f : ItemFactory) :
    ∀ (ls : List Loader) (acc : List Nat),
      (∀ p ∈ ls, ¬ isLoaderEnabled f p ∨ p.createResult = none) →
      createItemLoop f ls acc =
        { createItem f none with
            createCalls := acc ++ (ls.filter (fun p => decide (isLoaderEnabled f p))).map (·.id) } := by
  intro ls
  induction ls with
  | nil =>
      intro acc _
      simp only [createItemLoop, List.filter_nil, List.map_nil, List.append_nil]
      have : (createItem f none).createCalls = [] := rfl
      rw [this, List.append_nil]
  | cons l rest ih =>
      intro acc hfail
      have hl := hfail l (List.mem_cons_self l rest)
      have hrest : ∀ p ∈ rest, ¬ isLoaderEnabled f p ∨ p.createResult = none :=
        fun p hp => hfail p (List.mem_cons_of_mem l hp)
      obtain ⟨hitem, hcalls⟩ := createItem_fail_eval f l hl
      simp only [createItemLoop, hitem, Option.isSome_none, Bool.false_eq_true, if_false]
      rw [hcalls, ih _ hrest]
      by_cases he : isLoaderEnabled f l
      · simp [he, List.filter_cons, List.append_assoc]
      · simp [he, List.filter_cons]

theorem createItemLoop_first_success (f : ItemFactory) :
    ∀ (pre : List Loader) (l : Loader) (post : List Loader) (acc : List Nat),
      (∀ p ∈ pre, ¬ isLoaderEnabled f p ∨ p.createResult = none) →
      isLoaderEnabled f l →
      l.createResult.isSome →
      createItemLoop f (pre ++ l :: post) acc =
        { createItem f (some l) with
            createCalls :=
              acc ++ (pre.filter (fun p => decide (isLoaderEnabled f p))).map (·.id) ++ [l.id] } := by
  intro pre
  induction pre with
  | nil =>
      intro l post acc _ he hc
      obtain ⟨hsome, hcalls⟩ := createItem_success_eval f l he hc
      simp only [List.nil_append, createItemLoop, hsome, if_true]
      rw [hcalls]
      simp
  | cons p pre ih =>
      intro l post acc hfail he hc
      have hp := hfail p (List.mem_cons_self p pre)
      have hpre : ∀ q ∈ pre, ¬ isLoaderEnabled f q ∨ q.createResult = none :=
        fun q hq => hfail q (List.mem_cons_of_mem p hq)
      obtain ⟨hitem, hcalls⟩ := createItem_fail_eval f p hp
      simp only [List.cons_append, createItemLoop, hitem, Option.isSome_none,
        Bool.false_eq_true, if_false, List.append_eq]
      rw [hcalls, ih l post _ hpre he hc]
      by_cases hpe : isLoaderEnabled f p
      · simp [hpe, List.filter_cons, List.append_assoc]
      · simp [hpe, List.filter_cons]

/-- C4: `createItem` with no explicit loader tries the loaders in collection
order: when the collection splits as `pre ++ l :: post` with every loader in
`pre` disabled or declining and `l` enabled and succeeding, the result is
exactly the single-loader call on `l`, and the `create` entry points invoked
are the enabled members of `pre` followed by `l`; when every loader is
disabled or declines, the result is the built-in fallback (null-sentinel)
path, after every enabled loader's `create` was invoked. -/
theorem createItemAny_first_success :
    (∀ (f : ItemFactory) (pre : List Loader) (l : Loader) (post : List Loader),
      f.loaders = pre ++ l :: post →
      (∀ p ∈ pre, ¬ isLoaderEnabled f p ∨ p.createResult = none) →
      isLoaderEnabled f l →
      l.createResult.isSome →
      createItemAny f =
        { createItem f (some l) with
            createCalls :=
              (pre.filter (fun p => decide (isLoaderEnabled f p))).map (·.id) ++ [l.id] }) ∧
    (∀ f : ItemFactory,
      (∀ p ∈ f.loaders, ¬ isLoaderEnabled f p ∨ p.createResult = none) →
      createItemAny f =
        { createItem f none with
            createCalls := (f.loaders.filter (fun p => decide (isLoaderEnabled f p))).map (·.id) }) := by
  constructor
  · intro f pre l post hsplit hfail he hc
    unfold createItemAny
    rw [hsplit, createItemLoop_first_success f pre l post [] hfail he hc]
    simp
  · intro f hfail
    unfold createItemAny
    rw [createItemLoop_all_fail f f.loaders [] hfail]
    simp

/-- Witness for C4, the claim's own example `[A(disabled), B, C]` with `B`
declining and `C` succeeding: the result is produced by `C`. -/
theorem createItemAny_first_success_witness :
    (createItemAny factoryW4).item = (createItem factoryW4 (some loaderW4C)).item ∧
    (createItemAny factoryW4).item = some ⟨42⟩ ∧
    (createItemAny factoryW4).createCalls = [1, 2] := by
  have h := createItemAny_first_success.1 factoryW4 [loaderW4A, loaderW4B] loaderW4C []
    rfl (by decide) (by decide) (by decide)
  refine ⟨by rw [h], by rw [h]; decide, by rw [h]; decide⟩

/-! ## C6 -/

theorem saveItemsLoop_props (f : ItemFactory) :
    ∀ (ls : List Loader) (st : SaveStream),
      (∀ e ∈ (saveItemsLoop f ls st).2.2, e.2.1.pos = 0) ∧
      (∃ k, (saveItemsLoop f ls st).2.2.map (fun e => e.2.2) =
        List.replicate k false ++
          (if (saveItemsLoop f ls st).1 = true then [true] else [])) ∧
      ((saveItemsLoop f ls st).1 = false →
        (saveItemsLoop f ls st).2.2.map (fun e => e.1) =
          (ls.filter (fun l => decide (isLoaderEnabled f l))).map (·.id)) := by
  intro ls
  induction ls with
  | nil =>
      intro st
      refine ⟨by simp [saveItemsLoop], ⟨0, by simp [saveItemsLoop]⟩, by simp [saveItemsLoop]⟩
  | cons l rest ih =>
      intro st
      by_cases he : isLoaderEnabled f l
      · cases hr : (l.saveItems { st with pos := 0 }).1 with
        | true =>
            simp only [saveItemsLoop, if_pos he, hr, if_true]
            refine ⟨by intro e hee; simp at hee; rw [hee], ⟨0, by simp⟩, by simp⟩
        | false =>
            simp only [saveItemsLoop, if_pos he, hr, Bool.false_eq_true, if_false]
            obtain ⟨hpos, ⟨k, hk⟩, hids⟩ := ih (l.saveItems { st with pos := 0 }).2
            refine ⟨?_, ⟨k + 1, ?_⟩, ?_⟩
            · intro e hee
              rcases List.mem_cons.mp hee with hhead | htail
              · rw [hhead]
              · exact hpos e htail
            · simp only [List.map_cons, hk, List.replicate_succ, List.cons_append]
            · intro hfalse
              simp [List.filter_cons, he, hids hfalse]
      · simp only [saveItemsLoop, if_neg he]
        obtain ⟨hpos, hk, hids⟩ := ih st
        refine ⟨hpos, hk, ?_⟩
        intro hfalse
        rw [hids hfalse]
        simp [List.filter_cons, he]

/-- C6: every per-loader `saveItems` attempt observes the stream at position
0 (the reset happens immediately before each attempt, whatever a previously
failed loader wrote); every attempt but the last reports failure and the
overall call succeeds exactly when the last attempt succeeded (it stops at
the first success); when no attempt succeeds the call fails after trying
every enabled loader in order. -/
theorem saveItems_resets_and_stops_at_first_success (f : ItemFactory) (st : SaveStream) :
    (∀ e ∈ (saveItems f st).2.2, e.2.1.pos = 0) ∧
    (∃ k, (saveItems f st).2.2.map (fun e => e.2.2) =
      List.replicate k false ++
        (if (saveItems f st).1 = true then [true] else [])) ∧
    ((saveItems f st).1 = false →
      (saveItems f st).2.2.map (fun e => e.1) =
        (f.loaders.filter (fun l => decide (isLoaderEnabled f l))).map (·.id)) :=
  saveItemsLoop_props f f.loaders st

/-- Witness for C6: a failing loader that writes three bytes and moves the
position still hands the (sole) attempt a stream at position 0. -/
theorem saveItems_resets_witness :
    (saveItems factoryW6 ⟨5, [9]⟩).2.2.map (fun e => e.1) = [6] ∧
    (saveItems factoryW6 ⟨5, [9]⟩).2.2.map (fun e => e.2.1.pos) = [0] := by
  refine ⟨(saveItems_resets_and_stops_at_first_success factoryW6 ⟨5, [9]⟩).2.2 (by decide), ?_⟩
  decide

/-! ## C2 -/

theorem appendFormat_nodup (fmts : List String) :
    ∀ acc : List String, acc.Nodup → (fmts.foldl appendFormat acc).Nodup := by
  induction fmts with
  | nil => intro acc h; simpa using h
  | cons fmt rest ih =>
      intro acc h
      simp only [List.foldl_cons]
      apply ih
      unfold appendFormat
      by_cases hm : fmt ∈ acc
      · rwa [if_pos hm]
      · rw [if_neg hm]
        simp [List.nodup_append, h, hm]

theorem collectSaveFormats_nodup (f : ItemFactory) : (collectSaveFormats f).Nodup := by
  unfold collectSaveFormats
  have haux : ∀ (ls : List Loader) (acc : List String), acc.Nodup →
      (ls.foldl (collectStep f) acc).Nodup := by
    intro ls
    induction ls with
    | nil => intro acc h; simpa using h
    | cons l rest ih =>
        intro acc h
        simp only [List.foldl_cons]
        apply ih
        unfold collectStep
        by_cases he : isLoaderEnabled f l
        · rw [if_pos he]; exact appendFormat_nodup _ _ h
        · rwa [if_neg he]
  exact haux f.loaders [] (by simp)

theorem ensurePresent_mem_self (l : List String) (x : String) : x ∈ ensurePresent l x := by
  unfold ensurePresent
  by_cases h : x ∈ l <;> simp [h]

theorem ensurePresent_mem_mono (l : List String) (x y : String) (h : y ∈ l) :
    y ∈ ensurePresent l x := by
  unfold ensurePresent
  by_cases hm : x ∈ l <;> simp [hm, h]

theorem ensurePresent_nodup (l : List String) (x : String) (h : l.Nodup) :
    (ensurePresent l x).Nodup := by
  unfold ensurePresent
  by_cases hm : x ∈ l
  · rwa [if_pos hm]
  · rw [if_neg hm]; simp [List.nodup_append, h, hm]

theorem ensurePresent_count_self (l : List String) (x : String) (h : l.Nodup) :
    (ensurePresent l x).count x = 1 := by
  unfold ensurePresent
  by_cases hm : x ∈ l
  · rw [if_pos hm]; exact List.count_eq_one_of_mem h hm
  · rw [if_neg hm]
    rw [List.count_append]
    simp [List.count_eq_zero_of_not_mem hm]

theorem ensurePresent_count_ne (l : List String) (x y : String) (h : y ≠ x) :
    (ensurePresent l x).count y = l.count y := by
  unfold ensurePresent
  by_cases hm : x ∈ l
  · rw [if_pos hm]
  · rw [if_neg hm, List.count_append]
    simp [List.count_singleton', h]

theorem ensurePresent_head (l : List String) (x : String) (h : l ≠ []) :
    (ensurePresent l x).head? = l.head? := by
  unfold ensurePresent
  by_cases hm : x ∈ l
  · rw [if_pos hm]
  · rw [if_neg hm]
    cases l with
    | nil => exact absurd rfl h
    | cons a t => simp

theorem ensurePresent_ne_nil (l : List String) (x : String) : ensurePresent l x ≠ [] := by
  unfold ensurePresent
  by_cases hm : x ∈ l
  · rw [if_pos hm]; exact List.ne_nil_of_mem hm
  · rw [if_neg hm]; simp

theorem formatsToSave_eq_ensure (f : ItemFactory) :
    formatsToSave f =
      ensurePresent (ensurePresent (prependTextPlain (collectSaveFormats f)) mimeItemNotes)
        mimeItems := rfl

/-- C2 counterexample: with one enabled loader declaring `"text/html"` before
`"text/plain"`, the first element of `formatsToSave` is `"text/html"`, not
the plain-text identifier — refuting the claim as stated. -/
theorem formatsToSave_not_plain_first_counterexample :
    (formatsToSave factoryC2).head? ≠ some "text/plain" ∧
    "text/plain" ∈ formatsToSave factoryC2 := by
  constructor <;> decide

/-- C2 amended: `formatsToSave` always contains `"text/plain"` and contains
each of the two internal markers exactly once (also with zero enabled
loaders); `"text/plain"` is the *first* element whenever the aggregated
enabled-loader union does not already contain it (it is prepended only if
missing — when an enabled loader declares it after another format it may sit
later in the list). -/
theorem formatsToSave_amended (f : ItemFactory) :
    "text/plain" ∈ formatsToSave f ∧
    (formatsToSave f).count mimeItemNotes = 1 ∧
    (formatsToSave f).count mimeItems = 1 ∧
    ("text/plain" ∉ collectSaveFormats f → (formatsToSave f).head? = some "text/plain") := by
  have hnd : (collectSaveFormats f).Nodup := collectSaveFormats_nodup f
  have hpnd : (prependTextPlain (collectSaveFormats f)).Nodup := by
    unfold prependTextPlain
    by_cases hm : "text/plain" ∈ collectSaveFormats f
    · rwa [if_pos hm]
    · rw [if_neg hm]; simp [hnd, hm]
  have hpm : "text/plain" ∈ prependTextPlain (collectSaveFormats f) := by
    unfold prependTextPlain
    by_cases hm : "text/plain" ∈ collectSaveFormats f <;> simp [hm]
  rw [formatsToSave_eq_ensure]
  refine ⟨?_, ?_, ?_, ?_⟩
  · exact ensurePresent_mem_mono _ _ _ (ensurePresent_mem_mono _ _ _ hpm)
  · rw [ensurePresent_count_ne _ _ _ (by decide)]
    exact ensurePresent_count_self _ _ hpnd
  · exact ensurePresent_count_self _ _ (ensurePresent_nodup _ _ hpnd)
  · intro hm
    rw [ensurePresent_head _ _ (ensurePresent_ne_nil _ _),
      ensurePresent_head _ _ ?hne]
    case hne =>
      unfold prependTextPlain
      rw [if_neg hm]
      simp
    unfold prependTextPlain
    rw [if_neg hm]
    rfl

/-- Witness for C2 (amended), with zero loaders: the aggregation is empty, so
`"text/plain"` is prepended and heads the list. -/
theorem formatsToSave_amended_witness :
    (formatsToSave factoryEmpty).head? = some "text/plain" :=
  (formatsToSave_amended factoryEmpty).2.2.2 (by decide)

/-! ## C8 -/

/-- C8 counterexample: a cycling request on a widget with *no* recorded
ownership entry does return no item, but it is not state-free — the non-const
`QMap::operator[]` lookup default-inserts a null entry into
`m_loaderChildren`, so the map changes. -/
theorem otherItemLoader_miss_inserts_counterexample :
    (otherItemLoader factoryC8 3 1 5).1 = none ∧
    (otherItemLoader factoryC8 3 1 5).2.1 ≠ factoryC8.loaderChildren ∧
    (otherItemLoader factoryC8 3 1 5).2.1 = [(3, none)] := by
  refine ⟨by decide, by decide, by decide⟩

/-- C8 amended: when the ownership lookup yields no real owning loader the
cycling operation returns no item and invokes no loader's `create`; when the
widget is recorded with the null sentinel (fallback-created) the ownership
map is unchanged, but when the widget has no recorded entry at all, the
`QMap::operator[]` lookup inserts a null-sentinel entry for it (the only
state change). -/
theorem otherItemLoader_miss (f : ItemFactory) (w : Nat) (dir : Int) (fuel : Nat) :
    (lookupChildren f.loaderChildren w = some none →
      otherItemLoader f w dir fuel = (none, f.loaderChildren, [])) ∧
    (lookupChildren f.loaderChildren w = none →
      otherItemLoader f w dir fuel = (none, insertChildren f.loaderChildren w none, [])) := by
  constructor
  · intro h
    unfold otherItemLoader qmapBracket
    rw [h]
  · intro h
    unfold otherItemLoader qmapBracket
    rw [h]

/-- Witness for C8 (amended): widget 4 is recorded with the null sentinel;
cycling returns no item and leaves the map untouched. -/
theorem otherItemLoader_miss_witness :
    otherItemLoader factoryW8 4 1 7 = (none, factoryW8.loaderChildren, []) :=
  (otherItemLoader_miss factoryW8 4 1 7).1 (by decide)

/-! ## C1 -/

theorem otherLoop_allfail_step1 (fuel : Nat) (acc : List Int) :
    otherLoop factoryC1AllFail 0 1 (fuel + 1) 1 acc =
      otherLoop factoryC1AllFail 0 1 fuel 2 (acc ++ [1]) := rfl

theorem otherLoop_allfail_step2 (fuel : Nat) (acc : List Int) :
    otherLoop factoryC1AllFail 0 1 (fuel + 1) 2 acc =
      otherLoop factoryC1AllFail 0 1 fuel 1 (acc ++ [0]) := rfl

theorem otherLoop_allfail_length :
    ∀ (fuel : Nat) (i : Int) (acc : List Int), (i = 1 ∨ i = 2) →
      ((otherLoop factoryC1AllFail 0 1 fuel i acc).2.2).length = acc.length + fuel := by
  intro fuel
  induction fuel with
  | zero => intro i acc _; cases ‹i = 1 ∨ i = 2› <;> subst ‹_› <;> simp [otherLoop]
  | succ fuel ih =>
      intro i acc h
      cases h with
      | inl h1 =>
          subst h1
          rw [otherLoop_allfail_step1, ih 2 (acc ++ [1]) (Or.inr rfl)]
          simp [Nat.add_assoc, Nat.add_comm 1 fuel]
      | inr h2 =>
          subst h2
          rw [otherLoop_allfail_step2, ih 1 (acc ++ [0]) (Or.inl rfl)]
          simp [Nat.add_assoc, Nat.add_comm 1 fuel]

/-- C1 (evidence for the code bug): with two enabled loaders, the current
item owned by the loader at position 0 and direction "next", the source loop
wraps *after* its `i != currentIndex` exit test, so it considers position 0
— the starting position — as its second candidate (trace `[1, 0]`) and
returns the item created by the *owner itself*, where the claim and spec
demand that only position 1 be considered and no item be returned. When
every `create` declines, the loop never meets its exit condition at all: the
trace of considered positions grows with every unit of fuel instead of
stopping after n−1 candidates. -/
theorem otherItemLoader_wraps_to_start :
    (otherItemLoader factoryC1 5 1 10 =
      (some ⟨10⟩, [(5, some 0), (10, some 0)], [1, 0])) ∧
    (∀ fuel : Nat, ((otherItemLoader factoryC1AllFail 5 1 fuel).2.2).length = fuel) := by
  constructor
  · decide
  · intro fuel
    have hstart : otherItemLoader factoryC1AllFail 5 1 fuel =
        otherLoop factoryC1AllFail 0 1 fuel 1 [] := rfl
    rw [hstart, otherLoop_allfail_length fuel 1 [] (Or.inl rfl)]
    simp

/-! ## C3 -/

theorem pluginSorterLt_iff (order : List String) (x y : Loader) :
    pluginSorterLt order x y = true ↔ specNameOrderLt order x y := by
  have ex : pluginSorterValue order x = specRank order x := rfl
  have ey : pluginSorterValue order y = specRank order y := rfl
  unfold pluginSorterLt specNameOrderLt
  rw [ex, ey]
  by_cases h1 : specRank order x = -1 <;> by_cases h2 : specRank order y = -1 <;>
    simp [h1, h2]

theorem pluginSorterLt_eq_false_iff (order : List String) (x y : Loader) :
    pluginSorterLt order x y = false ↔ ¬ specNameOrderLt order x y := by
  rw [← pluginSorterLt_iff]
  exact Bool.not_eq_true _ ▸ ⟨fun h => by simp [h], fun h => by simpa using h⟩

/-- C3: the source comparator (`PluginSorter::operator()`) coincides with the
comparator the spec prescribes, and after `setPluginPriority(L)` the
collection is a permutation of the old one in which a loader named in `L`
never follows an unnamed one, two named loaders appear in `L`-index order,
and two unnamed loaders appear in descending-priority order. -/
theorem setPluginPriority_name_order (f : ItemFactory) (names : List String) :
    (∀ x y : Loader, pluginSorterLt names x y = true ↔ specNameOrderLt names x y) ∧
    (setPluginPriority f names).loaders.Perm f.loaders ∧
    (setPluginPriority f names).loaders.Pairwise (fun x y =>
      (specRank names x = -1 → specRank names y = -1) ∧
      (specRank names x ≠ -1 → specRank names y ≠ -1 →
        specRank names x ≤ specRank names y) ∧
      (specRank names x = -1 → specRank names y = -1 → y.priority ≤ x.priority)) := by
  refine ⟨pluginSorterLt_iff names, ?_, ?_⟩
  · exact List.perm_insertionSort _ _
  · haveI htot : IsTotal Loader (fun a b => pluginSorterLt names b a = false) := by
      constructor
      intro a b
      by_cases h1 : pluginSorterLt names b a = false
      · exact Or.inl h1
      · right
        have hba : specNameOrderLt names b a :=
          (pluginSorterLt_iff names b a).mp (by simpa using h1)
        rw [pluginSorterLt_eq_false_iff]
        intro hab
        unfold specNameOrderLt at hba hab
        omega
    haveI htr : IsTrans Loader (fun a b => pluginSorterLt names b a = false) := by
      constructor
      intro a b c h1 h2
      rw [pluginSorterLt_eq_false_iff] at h1 h2 ⊢
      intro hca
      unfold specNameOrderLt at h1 h2 hca
      omega
    have hs := List.sorted_insertionSort
      (fun a b => pluginSorterLt names b a = false) f.loaders
    refine hs.imp ?_
    intro x y hr
    rw [pluginSorterLt_eq_false_iff] at hr
    unfold specNameOrderLt at hr
    refine ⟨?_, ?_, ?_⟩ <;> omega

/-- Witness for C3 at concrete loaders: with name list `["b"]`, loader "a"
(unnamed) does not sort before loader "b" (named). -/
theorem setPluginPriority_name_order_witness :
    (pluginSorterLt ["b"] loaderW3a loaderW3b = true ↔
      specNameOrderLt ["b"] loaderW3a loaderW3b) ∧
    pluginSorterLt ["b"] loaderW3a loaderW3b = false :=
  ⟨(setPluginPriority_name_order factoryW3 ["b"]).1 loaderW3a loaderW3b, by decide⟩
